import Mathlib

set_option linter.unusedVariables false

/-!
Shallow embedding of the BlogGuru product-research pipeline
(blogguru/core/product_researcher.py and blogguru/run.py).

Python dicts produced by json.loads may lack keys, so the scraped
landing-page analysis is modelled with Option fields; dict subscript
access is modelled as Except over a KeyError-style error type.
Machine floats for sentiment scores are modelled as rationals.
External collaborators (HTTP fetch, web search, the OpenAI chat call,
json.loads) are oracle fields of an Env record; a raising call is an
Except.error result of the oracle.
-/

namespace BlogGuru

/-- Result dict of json.loads on the claim-extraction LLM output:
every key may be absent (source: product_researcher.py lines 97-107). -/
structure PartialClaims where
  claims : Option (List String)
  benefits : Option (List String)
  ingredients : Option (List String)
  red_flags : Option (List String)
  deriving Repr, DecidableEq

/-- Review analysis dict as used by the scorer; _search_reviews always
returns all five keys (product_researcher.py lines 120-126). -/
structure ReviewAnalysis where
  positive : List String
  negative : List String
  neutral : List String
  fake_detected : Bool
  sentiment_score : ℚ
  deriving Repr, DecidableEq

/-- One entry of the scam-check sources list (url and title). -/
structure ScamSource where
  url : String
  title : String
  deriving Repr, DecidableEq

/-- Scam check dict (product_researcher.py lines 162-167). -/
structure ScamCheck where
  scam_reports_found : Bool
  bbb_rating : Option String
  complaint_count : Nat
  sources : List ScamSource
  deriving Repr, DecidableEq

/-- One evidence record (product_researcher.py lines 210-216). -/
structure Evidence where
  claim : String
  source : String
  title : String
  url : String
  snippet : String
  deriving Repr, DecidableEq

/-- A web-search result dict: title and url are always present in the
shapes the code consumes; snippet is fetched with .get and may be absent. -/
structure SearchResult where
  title : String
  url : String
  snippet : Option String
  deriving Repr, DecidableEq

/-- Result dict of json.loads on the review-analysis LLM output:
every key the code reads may be absent (lines 306-314, 321-327). -/
structure ReviewJson where
  sentiment_score : Option ℚ
  fake_detected : Option Bool
  positive_themes : Option (List String)
  negative_themes : Option (List String)
  deriving Repr, DecidableEq

/-- Python exceptions that the embedded control flow can surface. -/
inductive PyErr where
  | keyError (key : String)
  deriving Repr, DecidableEq

/-- Evidence bonus of _calculate_trust_score (lines 229-232): add 15 for
three or more evidence records, else 10 for at least one, else nothing. -/
def evidence_bonus (evidence : List Evidence) : Int :=
  if evidence.length ≥ 3 then 15 else if evidence.length ≥ 1 then 10 else 0

/-- Sentiment bonus (lines 234-237): add 20 for sentiment strictly above
0.6, else 10 for sentiment strictly above 0.3, else nothing. -/
def sentiment_bonus (reviews : ReviewAnalysis) : Int :=
  if reviews.sentiment_score > 0.6 then 20
  else if reviews.sentiment_score > 0.3 then 10 else 0

/-- Scam-free bonus (lines 239-240): add 15 when no scam reports found. -/
def scam_free_bonus (scam_check : ScamCheck) : Int :=
  if ¬ scam_check.scam_reports_found then 15 else 0

/-- Red-flag penalty (lines 243-244): subtract 5 per red flag.  The step is
guarded by Python truthiness of product_data.get, which is false both for a
missing red_flags key and for an empty list, so it subtracts nothing then. -/
def red_flag_penalty (product_data : PartialClaims) : Int :=
  match product_data.red_flags with
  | some flags => if flags.isEmpty then 0 else (flags.length : Int) * 5
  | none => 0

/-- Scam penalty (lines 246-247): subtract 30 when scam reports found. -/
def scam_penalty (scam_check : ScamCheck) : Int :=
  if scam_check.scam_reports_found then 30 else 0

/-- Fake-review penalty (lines 249-250): subtract 20 when fakes detected. -/
def fake_penalty (reviews : ReviewAnalysis) : Int :=
  if reviews.fake_detected then 20 else 0

/-- Negative-sentiment penalty (lines 252-253): subtract 20 when the
sentiment score is strictly negative. -/
def negative_sentiment_penalty (reviews : ReviewAnalysis) : Int :=
  if reviews.sentiment_score < 0 then 20 else 0

/-- Running total of _calculate_trust_score before the final clamp
(product_researcher.py lines 226-253): the sequential chain of additive
and subtractive adjustments applied to the baseline of 50, written as the
sum of the independent per-signal adjustments it performs. -/
def trust_score_raw (product_data : PartialClaims) (reviews : ReviewAnalysis)
    (scam_check : ScamCheck) (evidence : List Evidence) : Int :=
  50 + evidence_bonus evidence + sentiment_bonus reviews + scam_free_bonus scam_check
    - red_flag_penalty product_data - scam_penalty scam_check
    - fake_penalty reviews - negative_sentiment_penalty reviews

/-- _calculate_trust_score (product_researcher.py lines 223-256):
the running total clamped to the interval from 0 to 100 (line 256). -/
def calculate_trust_score (product_data : PartialClaims) (reviews : ReviewAnalysis)
    (scam_check : ScamCheck) (evidence : List Evidence) : Int :=
  max 0 (min 100 (trust_score_raw product_data reviews scam_check evidence))

/-- Modelled from the spec: the reference scoring algorithm stated in
the specification and in claim C2, where ScrapedClaims.red_flags is a plain
list and the red-flag step subtracts 5 per flag unconditionally. -/
def spec_trust_score (red_flags : List String) (reviews : ReviewAnalysis)
    (scam_check : ScamCheck) (evidence : List Evidence) : Int :=
  let score : Int := 50
  let score := score +
    (if evidence.length ≥ 3 then 15 else if evidence.length ≥ 1 then 10 else 0)
  let score := score +
    (if reviews.sentiment_score > 0.6 then 20
     else if reviews.sentiment_score > 0.3 then 10 else 0)
  let score := score + (if ¬ scam_check.scam_reports_found then 15 else 0)
  let score := score - (red_flags.length : Int) * 5
  let score := score - (if scam_check.scam_reports_found then 30 else 0)
  let score := score - (if reviews.fake_detected then 20 else 0)
  let score := score - (if reviews.sentiment_score < 0 then 20 else 0)
  max 0 (min 100 score)

/-- _generate_recommendation (product_researcher.py lines 258-267).
The approved argument is accepted and never read. -/
def generate_recommendation (trust_score : Int) (approved : Bool) : String :=
  if trust_score ≥ 80 then
    "Highly recommended - Strong evidence and positive reviews"
  else if trust_score ≥ 60 then
    "Recommended - Sufficient evidence and generally positive feedback"
  else if trust_score ≥ 40 then
    "Proceed with caution - Mixed reviews or limited evidence"
  else
    "Not recommended - Insufficient evidence or negative indicators"

/-- The research record assembled by research_product
(product_researcher.py lines 59-72); the researched_at timestamp is
outside the embedding. -/
structure ResearchResult where
  product_name : String
  trust_score : Int
  approved : Bool
  claims : List String
  benefits : List String
  ingredients : List String
  evidence : List Evidence
  reviews : ReviewAnalysis
  scam_check : ScamCheck
  red_flags : List String
  recommendation : String
  deriving Repr, DecidableEq

/-- The content dict produced by the Content Generator, restricted to the
fields run.py consumes (content_generator.py lines 63-72). -/
structure ContentResult where
  title : String
  meta_description : String
  slug : String
  content : String
  word_count : Nat
  deriving Repr, DecidableEq

/-- A product entry of the configuration (run.py, product_researcher.py):
name and landing_page are accessed by subscript and assumed present,
keywords is read with .get and may be absent. -/
structure Product where
  name : String
  landing_page : String
  keywords : Option (List String)
  deriving Repr, DecidableEq

/-- The configuration keys the embedded pipeline reads:
research.trust_score_threshold and research.evidence_sources. -/
structure Config where
  trust_score_threshold : Int
  evidence_sources : List String
  deriving Repr, DecidableEq

/-- Oracles for the external collaborators of the pipeline.  An
Except.error result models the underlying call raising an exception.
fetchLanding is requests.get plus BeautifulSoup text extraction
(lines 81-85); llm is the raw OpenAI chat call inside _call_openai
(lines 341-350); parseClaims and parseReviewJson are json.loads applied
to LLM output, none modelling a parse exception and any present value
being the typed reading of the parsed dict; webSearch is _web_search
(query and num_results); extractReview is _extract_review_content, which
catches its own exceptions and returns an empty string (lines 275-289);
genContent is the Content Generator collaborator boundary
(content_generator.py generate_content), which can itself raise, for
example a KeyError when the product dict lacks platform or hoplink keys. -/
structure Env where
  fetchLanding : String → Except Unit String
  llm : String → Except Unit String
  parseClaims : String → Option PartialClaims
  parseReviewJson : String → Option ReviewJson
  webSearch : String → Nat → Except Unit (List SearchResult)
  extractReview : String → String
  genContent : Product → ResearchResult → Except PyErr ContentResult

/-- _call_openai (product_researcher.py lines 338-353): returns the LLM
text on success and swallows any exception, returning the two-character
string of an empty JSON object. -/
def call_openai (env : Env) (prompt : String) : String :=
  match env.llm prompt with
  | .ok s => s
  | .error _ => "\x7b\x7d"

/-- Claim-extraction prompt of _scrape_landing_page (lines 88-104), built
over the page text truncated to 5000 characters. -/
def scrape_prompt (text : String) : String :=
  "Analyze this product landing page and extract:\n" ++
  "1. Main product claims (what it promises to do)\n" ++
  "2. Key benefits listed\n" ++
  "3. Any ingredients or components mentioned\n" ++
  "4. Any red flags (unrealistic claims, pressure tactics, fake urgency)\n\n" ++
  "Product page text:\n" ++ (text.take 5000) ++ "\n\n" ++
  "Return as JSON:\n\x7b\n    \"claims\": [\"claim1\", \"claim2\"],\n" ++
  "    \"benefits\": [\"benefit1\", \"benefit2\"],\n" ++
  "    \"ingredients\": [\"ingredient1\", \"ingredient2\"],\n" ++
  "    \"red_flags\": [\"flag1\", \"flag2\"]\n\x7d\n"

/-- The dict returned by the except branch of _scrape_landing_page
(lines 111-116): empty claim lists and the single failure red flag. -/
def scrape_failure_default : PartialClaims :=
  { claims := some [], benefits := some [], ingredients := some [],
    red_flags := some ["Unable to scrape landing page"] }

/-- _scrape_landing_page (lines 78-116).  The try block covers the fetch,
the LLM analysis and json.loads; a fetch exception or a parse exception
lands in the except branch, but an LLM exception is swallowed inside
_call_openai, whose empty-object fallback parses successfully into a dict
with no keys. -/
def scrape_landing_page (env : Env) (url : String) : PartialClaims :=
  match env.fetchLanding url with
  | .error _ => scrape_failure_default
  | .ok text =>
    match env.parseClaims (call_openai env (scrape_prompt text)) with
    | some d => d
    | none => scrape_failure_default

/-- The five review search queries of _search_reviews (lines 129-135). -/
def review_queries (product_name : String) : List String :=
  ["\"" ++ product_name ++ "\" review",
   "\"" ++ product_name ++ "\" scam",
   "\"" ++ product_name ++ "\" complaints",
   "\"" ++ product_name ++ "\" reddit",
   "\"" ++ product_name ++ "\" trustpilot"]

/-- Per-query body of the review loop (lines 139-151): search, extract
text from each result url, keep the non-empty texts; a search exception
is caught and contributes nothing. -/
def query_review_texts (env : Env) (query : String) : List String :=
  match env.webSearch query 5 with
  | .error _ => []
  | .ok results =>
    results.filterMap fun r =>
      let t := env.extractReview r.url
      if t = "" then none else some t

/-- The all_reviews accumulation across the five queries (lines 137-151). -/
def collect_review_texts (env : Env) (product_name : String) : List String :=
  (review_queries product_name).foldl
    (fun acc query => acc ++ query_review_texts env query) []

/-- Review-analysis prompt of _analyze_reviews_with_ai (lines 295-315). -/
def review_prompt (product_name : String) (combined_reviews : String) : String :=
  "Analyze these reviews for \"" ++ product_name ++ "\" and provide:\n" ++
  "1. Sentiment score (-1 to 1, where -1 is very negative, 0 is neutral, 1 is very positive)\n" ++
  "2. Are there signs of fake reviews? (yes/no)\n" ++
  "3. Categorize reviews into positive, negative, neutral (provide counts)\n" ++
  "4. Key themes in positive reviews\n" ++
  "5. Key themes in negative reviews\n\n" ++
  "Reviews:\n" ++ combined_reviews ++ "\n\n" ++
  "Return as JSON:\n\x7b\n    \"sentiment_score\": 0.5,\n" ++
  "    \"fake_detected\": false,\n    \"positive_count\": 5,\n" ++
  "    \"negative_count\": 2,\n    \"neutral_count\": 3,\n" ++
  "    \"positive_themes\": [\"theme1\", \"theme2\"],\n" ++
  "    \"negative_themes\": [\"theme1\", \"theme2\"]\n\x7d\n"

/-- The five-key dict _analyze_reviews_with_ai returns in both of its
branches (lines 321-336). -/
structure ReviewUpdate where
  sentiment_score : ℚ
  fake_detected : Bool
  positive : List String
  negative : List String
  neutral : List String
  deriving Repr, DecidableEq

/-- _analyze_reviews_with_ai (lines 291-336): joins the first ten review
texts, asks the LLM, reads the parsed dict with per-key defaults; any
exception (in particular a parse failure) yields the neutral dict.  When
the LLM call itself fails, _call_openai returns the empty JSON object,
which parses to a dict whose every .get falls back to the same defaults. -/
def analyze_reviews_with_ai (env : Env) (reviews : List String)
    (product_name : String) : ReviewUpdate :=
  let combined_reviews := String.intercalate "\n\n" (reviews.take 10)
  match env.parseReviewJson (call_openai env (review_prompt product_name combined_reviews)) with
  | some a =>
    { sentiment_score := a.sentiment_score.getD 0,
      fake_detected := a.fake_detected.getD false,
      positive := a.positive_themes.getD [],
      negative := a.negative_themes.getD [],
      neutral := [] }
  | none =>
    { sentiment_score := 0, fake_detected := false,
      positive := [], negative := [], neutral := [] }

/-- The neutral reviews dict _search_reviews starts from (lines 120-126). -/
def neutral_reviews : ReviewAnalysis :=
  { positive := [], negative := [], neutral := [],
    fake_detected := false, sentiment_score := 0 }

/-- _search_reviews (lines 118-158): collect texts over the five queries;
with no text the initial neutral dict is returned unchanged, otherwise the
AI analysis overwrites all five keys. -/
def search_reviews (env : Env) (product_name : String) : ReviewAnalysis :=
  let all_reviews := collect_review_texts env product_name
  if all_reviews.isEmpty then neutral_reviews
  else
    let a := analyze_reviews_with_ai env all_reviews product_name
    { positive := a.positive, negative := a.negative, neutral := a.neutral,
      fake_detected := a.fake_detected, sentiment_score := a.sentiment_score }

/-- The four scam search queries of _check_scam_reports (lines 170-175). -/
def scam_queries (product_name : String) : List String :=
  ["\"" ++ product_name ++ "\" scam",
   "\"" ++ product_name ++ "\" fraud",
   "\"" ++ product_name ++ "\" BBB",
   "\"" ++ product_name ++ "\" FTC complaint"]

/-- The fixed scam lexicon of _check_scam_reports (line 184). -/
def scam_words : List String := ["scam", "fraud", "fake", "ripoff"]

/-- Python substring membership test (the in operator on strings),
via splitOn: a non-empty needle occurs in s iff splitting s on it
produces more than one part. -/
def contains_substr (s needle : String) : Bool :=
  (s.splitOn needle).length ≠ 1

/-- Match test of one search result against the scam lexicon (lines
183-184): some word occurs in the lowercased title or snippet. -/
def scam_hit (r : SearchResult) : Bool :=
  scam_words.any fun w =>
    contains_substr r.title.toLower w ||
    contains_substr (r.snippet.getD "").toLower w

/-- The initial scam-check dict (lines 162-167). -/
def initial_scam_check : ScamCheck :=
  { scam_reports_found := false, bbb_rating := none,
    complaint_count := 0, sources := [] }

/-- _check_scam_reports (lines 160-194): over four queries, flag and
record every matching result; a search exception is caught per query and
contributes nothing.  Never raises. -/
def check_scam_reports (env : Env) (product_name : String) : ScamCheck :=
  (scam_queries product_name).foldl
    (fun sc query =>
      match env.webSearch query 3 with
      | .error _ => sc
      | .ok results =>
        results.foldl
          (fun sc r =>
            if scam_hit r then
              { sc with scam_reports_found := true,
                        sources := sc.sources ++ [{ url := r.url, title := r.title }] }
            else sc)
          sc)
    initial_scam_check

/-- Evidence search query (line 206): site-restricted, first two keywords,
claim truncated to 50 characters. -/
def evidence_query (source : String) (keywords : List String) (claim : String) : String :=
  "site:" ++ source ++ " " ++ String.intercalate " " (keywords.take 2) ++
  " " ++ claim.take 50

/-- _find_evidence (lines 196-221): top 3 claims by top 3 trusted sources,
2 results per query, appending an evidence record per result; a search
exception is caught per query and contributes nothing.  Never raises. -/
def find_evidence (env : Env) (cfg : Config) (claims : List String)
    (keywords : List String) : List Evidence :=
  (claims.take 3).foldl
    (fun acc claim =>
      (cfg.evidence_sources.take 3).foldl
        (fun acc source =>
          match env.webSearch (evidence_query source keywords claim) 2 with
          | .error _ => acc
          | .ok results =>
            acc ++ results.map fun r =>
              { claim := claim, source := source, title := r.title,
                url := r.url, snippet := r.snippet.getD "" })
        acc)
    []

/-- research_product (product_researcher.py lines 25-76): run the four
collection steps, then the scorer, the threshold decision and the
narrator, and assemble the record.  The subscript accesses
product_data[claims] at line 51 and product_data[benefits] at line 64
raise KeyError when the scraped dict lacks those keys; every other step
is total. -/
def research_product (env : Env) (cfg : Config) (product : Product) :
    Except PyErr ResearchResult :=
  let product_data := scrape_landing_page env product.landing_page
  let reviews := search_reviews env product.name
  let scam_check := check_scam_reports env product.name
  match product_data.claims with
  | none => .error (.keyError "claims")
  | some claims =>
    let evidence := find_evidence env cfg claims (product.keywords.getD [])
    let trust_score := calculate_trust_score product_data reviews scam_check evidence
    let approved : Bool := decide (trust_score ≥ cfg.trust_score_threshold)
    match product_data.benefits with
    | none => .error (.keyError "benefits")
    | some benefits =>
      .ok { product_name := product.name,
            trust_score := trust_score,
            approved := approved,
            claims := claims,
            benefits := benefits,
            ingredients := product_data.ingredients.getD [],
            evidence := evidence,
            reviews := reviews,
            scam_check := scam_check,
            red_flags := product_data.red_flags.getD [],
            recommendation := generate_recommendation trust_score approved }

/-- One entry of the run summary list saved by run (run.py lines 127-132,
139-144 and 154-161): the status is rejected, approved (dry-run) or
completed, and the remaining keys are present only on some branches. -/
structure RunEntry where
  product : String
  status : String
  trust_score : Int
  reason : Option String
  content_generated : Option Bool
  output_path : Option String
  word_count : Option Nat
  deriving Repr, DecidableEq

/-- One blacklist entry (run.py lines 188-193); the rejected_at timestamp
is outside the embedding. -/
structure BlacklistEntry where
  product : String
  trust_score : Int
  reason : String
  deriving Repr, DecidableEq

/-- _add_to_blacklist (run.py lines 176-197): append one entry carrying
the trust score and the recommendation text as the reason. -/
def add_to_blacklist (blacklist : List BlacklistEntry) (product_name : String)
    (research : ResearchResult) : List BlacklistEntry :=
  blacklist ++ [{ product := product_name, trust_score := research.trust_score,
                  reason := research.recommendation }]

/-- Output path of _save_content (run.py line 171). -/
def save_content_path (content : ContentResult) : String :=
  "blogguru/output/blog/" ++ content.slug ++ ".html"

/-- _process_product (run.py lines 107-161): research, then the rejected
branch (with blacklisting), the dry-run approved branch, or content
generation and the completed branch.  An exception from research or from
content generation propagates to the caller. -/
def process_product (env : Env) (cfg : Config) (dry_run : Bool)
    (product : Product) : Except PyErr RunEntry :=
  match research_product env cfg product with
  | .error e => .error e
  | .ok research =>
    if ¬ research.approved then
      .ok { product := product.name, status := "rejected",
            trust_score := research.trust_score,
            reason := some research.recommendation,
            content_generated := none, output_path := none, word_count := none }
    else if dry_run then
      .ok { product := product.name, status := "approved",
            trust_score := research.trust_score, reason := none,
            content_generated := some false, output_path := none, word_count := none }
    else
      match env.genContent product research with
      | .error e => .error e
      | .ok content =>
        .ok { product := product.name, status := "completed",
              trust_score := research.trust_score, reason := none,
              content_generated := some true,
              output_path := some (save_content_path content),
              word_count := some content.word_count }

/-- The results list accumulated by run (run.py lines 78-87): one entry
appended per product whose processing returns normally; a product whose
processing raises is logged to the error log and contributes no entry. -/
def run_results (env : Env) (cfg : Config) (dry_run : Bool)
    (products : List Product) : List RunEntry :=
  products.foldl
    (fun results p =>
      match process_product env cfg dry_run p with
      | .ok r => results ++ [r]
      | .error _ => results)
    []

/-- Reading of json.loads output for the claim-extraction call when the
LLM text is the two-character empty JSON object: a dict with no keys.
Any other text is treated as unparseable here; concrete environments
built from this model runs where the only LLM output seen is the
_call_openai fallback. -/
def parse_empty_object (s : String) : Option PartialClaims :=
  if s = "\x7b\x7d" then
    some { claims := none, benefits := none, ingredients := none, red_flags := none }
  else none

/-- Reading of json.loads output for the review-analysis call when the
LLM text is the empty JSON object: a dict with no keys. -/
def parse_empty_review (s : String) : Option ReviewJson :=
  if s = "\x7b\x7d" then
    some { sentiment_score := none, fake_detected := none,
           positive_themes := none, negative_themes := none }
  else none

/-- Concrete environment in which the landing-page fetch succeeds, every
OpenAI call raises (API down), web searches return no results and review
extraction finds nothing. -/
def llm_down_env : Env :=
  { fetchLanding := fun _ => .ok "Landing page text",
    llm := fun _ => .error (),
    parseClaims := parse_empty_object,
    parseReviewJson := parse_empty_review,
    webSearch := fun _ _ => .ok [],
    extractReview := fun _ => "",
    genContent := fun _ _ => .error (.keyError "platform") }

/-- Concrete environment in which the landing-page fetch itself raises as
well, so every channel degrades to its documented default. -/
def all_fail_env : Env :=
  { llm_down_env with fetchLanding := fun _ => .error () }

/-- A concrete product entry. -/
def sample_product : Product :=
  { name := "TestProduct", landing_page := "https://example.com/product",
    keywords := none }

/-- A concrete configuration with approval threshold 70. -/
def sample_config : Config :=
  { trust_score_threshold := 70,
    evidence_sources := ["nih.gov", "pubmed.ncbi.nlm.nih.gov", "mayoclinic.org"] }

/-- The research record produced under all_fail_env and sample_config:
every channel at its default gives 50 + 15 - 5 = 60, below threshold 70. -/
def all_fail_result : ResearchResult :=
  { product_name := "TestProduct", trust_score := 60, approved := false,
    claims := [], benefits := [], ingredients := [], evidence := [],
    reviews := neutral_reviews, scam_check := initial_scam_check,
    red_flags := ["Unable to scrape landing page"],
    recommendation := "Recommended - Sufficient evidence and generally positive feedback" }

/-- The rejected run-summary entry produced under all_fail_env,
sample_config and sample_product. -/
def rejected_entry : RunEntry :=
  { product := "TestProduct", status := "rejected", trust_score := 60,
    reason := some "Recommended - Sufficient evidence and generally positive feedback",
    content_generated := none, output_path := none, word_count := none }

/-- A concrete configuration with approval threshold 50, below the score
60 that the all-defaults run produces. -/
def low_threshold_config : Config :=
  { trust_score_threshold := 50,
    evidence_sources := ["nih.gov", "pubmed.ncbi.nlm.nih.gov", "mayoclinic.org"] }

/-- The dry-run summary entry produced under all_fail_env,
low_threshold_config and sample_product: its status is the string
approved, which is neither completed nor rejected nor errored. -/
def approved_entry : RunEntry :=
  { product := "TestProduct", status := "approved", trust_score := 60,
    reason := none, content_generated := some false,
    output_path := none, word_count := none }

/-- C1: the trust score is always an integer between 0 and 100, for every
scraped-claims dict, every review analysis (any rational sentiment score),
every scam check and every evidence list, however large or negative the
pre-clamp running total is. -/
theorem trust_score_clamped (product_data : PartialClaims) (reviews : ReviewAnalysis)
    (scam_check : ScamCheck) (evidence : List Evidence) :
    0 ≤ calculate_trust_score product_data reviews scam_check evidence ∧
    calculate_trust_score product_data reviews scam_check evidence ≤ 100 := by
  unfold calculate_trust_score
  omega

/-- C2: _calculate_trust_score coincides with the reference algorithm of the
specification on every input: baseline 50, evidence bonus 15 or 10, strict
sentiment thresholds 0.6 and 0.3, scam-free bonus 15, 5 points per red flag,
scam penalty 30, fake-review penalty 20, negative-sentiment penalty 20, then
the clamp.  The red-flag list of the reference is the red_flags entry of the
dict, empty when the key is absent. -/
theorem trust_score_matches_reference (product_data : PartialClaims)
    (reviews : ReviewAnalysis) (scam_check : ScamCheck) (evidence : List Evidence) :
    calculate_trust_score product_data reviews scam_check evidence =
      spec_trust_score (product_data.red_flags.getD []) reviews scam_check evidence := by
  have hrf : red_flag_penalty product_data =
      ((product_data.red_flags.getD []).length : Int) * 5 := by
    unfold red_flag_penalty
    rcases product_data.red_flags with _ | ⟨_ | ⟨f, fs⟩⟩ <;> simp
  simp only [calculate_trust_score, trust_score_raw, spec_trust_score,
    evidence_bonus, sentiment_bonus, scam_free_bonus, scam_penalty,
    fake_penalty, negative_sentiment_penalty, hrf]

/-- C6: flipping scam_reports_found from false to true while keeping every
other input identical lowers the pre-clamp running total by exactly 45:
the 15-point scam-free bonus is lost and the 30-point penalty is incurred. -/
theorem scam_net_effect_minus_45 (product_data : PartialClaims)
    (reviews : ReviewAnalysis) (scam_check : ScamCheck) (evidence : List Evidence) :
    trust_score_raw product_data reviews
        { scam_check with scam_reports_found := true } evidence =
      trust_score_raw product_data reviews
        { scam_check with scam_reports_found := false } evidence - 45 := by
  have h1 : scam_free_bonus { scam_check with scam_reports_found := true } = 0 := rfl
  have h2 : scam_free_bonus { scam_check with scam_reports_found := false } = 15 := rfl
  have h3 : scam_penalty { scam_check with scam_reports_found := true } = 30 := rfl
  have h4 : scam_penalty { scam_check with scam_reports_found := false } = 0 := rfl
  unfold trust_score_raw
  rw [h1, h2, h3, h4]
  ring

/-- C3 counterexample: at score 80 the code returns the hyphenated,
capitalized verdict, not the em-dash lowercase text the claim quotes. -/
theorem recommendation_text_counterexample :
    generate_recommendation 80 true =
      "Highly recommended - Strong evidence and positive reviews" ∧
    generate_recommendation 80 true ≠
      "Highly recommended — strong evidence and positive reviews" := by
  constructor
  · rfl
  · decide

/-- C3 amended: _generate_recommendation returns exactly one of four fixed
texts selected by inclusive lower bounds evaluated highest-first, with the
exact texts of the source (hyphen separator, capitalized second clause):
at least 80 is Highly recommended, 60 to 79 is Recommended, 40 to 59 is
Proceed with caution, below 40 is Not recommended. -/
theorem recommendation_bands (score : Int) (approved : Bool) :
    (generate_recommendation score approved =
        "Highly recommended - Strong evidence and positive reviews" ∨
      generate_recommendation score approved =
        "Recommended - Sufficient evidence and generally positive feedback" ∨
      generate_recommendation score approved =
        "Proceed with caution - Mixed reviews or limited evidence" ∨
      generate_recommendation score approved =
        "Not recommended - Insufficient evidence or negative indicators") ∧
    (score ≥ 80 → generate_recommendation score approved =
      "Highly recommended - Strong evidence and positive reviews") ∧
    (60 ≤ score → score < 80 → generate_recommendation score approved =
      "Recommended - Sufficient evidence and generally positive feedback") ∧
    (40 ≤ score → score < 60 → generate_recommendation score approved =
      "Proceed with caution - Mixed reviews or limited evidence") ∧
    (score < 40 → generate_recommendation score approved =
      "Not recommended - Insufficient evidence or negative indicators") := by
  unfold generate_recommendation
  by_cases h1 : score ≥ 80
  · rw [if_pos h1]
    exact ⟨Or.inl rfl, fun _ => rfl,
      fun _ h => absurd h1 (by omega),
      fun _ h => absurd h1 (by omega),
      fun h => absurd h1 (by omega)⟩
  · rw [if_neg h1]
    by_cases h2 : score ≥ 60
    · rw [if_pos h2]
      exact ⟨Or.inr (Or.inl rfl), fun h => absurd h h1, fun _ _ => rfl,
        fun _ h => absurd h2 (by omega), fun h => absurd h2 (by omega)⟩
    · rw [if_neg h2]
      by_cases h3 : score ≥ 40
      · rw [if_pos h3]
        exact ⟨Or.inr (Or.inr (Or.inl rfl)), fun h => absurd h h1,
          fun h _ => absurd h h2, fun _ _ => rfl, fun h => absurd h3 (by omega)⟩
      · rw [if_neg h3]
        exact ⟨Or.inr (Or.inr (Or.inr rfl)), fun h => absurd h h1,
          fun h _ => absurd h h2, fun h _ => absurd h h3, fun _ => rfl⟩

/-- C3 witness: the amended band theorem applied at the concrete
boundary scores 80, 79, 60, 59, 40 and 39. -/
theorem recommendation_bands_witness :
    generate_recommendation 80 true =
      "Highly recommended - Strong evidence and positive reviews" ∧
    generate_recommendation 79 true =
      "Recommended - Sufficient evidence and generally positive feedback" ∧
    generate_recommendation 60 false =
      "Recommended - Sufficient evidence and generally positive feedback" ∧
    generate_recommendation 59 false =
      "Proceed with caution - Mixed reviews or limited evidence" ∧
    generate_recommendation 40 false =
      "Proceed with caution - Mixed reviews or limited evidence" ∧
    generate_recommendation 39 false =
      "Not recommended - Insufficient evidence or negative indicators" :=
  ⟨(recommendation_bands 80 true).2.1 (by decide),
   (recommendation_bands 79 true).2.2.1 (by decide) (by decide),
   (recommendation_bands 60 false).2.2.1 (by decide) (by decide),
   (recommendation_bands 59 false).2.2.2.1 (by decide) (by decide),
   (recommendation_bands 40 false).2.2.2.1 (by decide) (by decide),
   (recommendation_bands 39 false).2.2.2.2 (by decide)⟩

/-- Helper: the sentiment bonus of the neutral review analysis is zero. -/
theorem sentiment_bonus_neutral : sentiment_bonus neutral_reviews = 0 := by
  unfold sentiment_bonus neutral_reviews
  norm_num

/-- Helper: the negative-sentiment penalty of the neutral analysis is zero. -/
theorem negative_penalty_neutral : negative_sentiment_penalty neutral_reviews = 0 := by
  unfold negative_sentiment_penalty neutral_reviews
  norm_num

/-- Helper: the all-defaults inputs score 50 + 15 - 5 = 60. -/
theorem score_all_defaults :
    calculate_trust_score scrape_failure_default neutral_reviews
      initial_scam_check [] = 60 := by
  unfold calculate_trust_score trust_score_raw
  rw [sentiment_bonus_neutral, negative_penalty_neutral]
  rfl

/-- Helper: the concrete all-channels-fail run succeeds and produces the
all-defaults record with score 60, rejected at threshold 70. -/
theorem all_fail_run_eq :
    research_product all_fail_env sample_config sample_product =
      Except.ok all_fail_result := by
  unfold research_product
  simp only [show scrape_landing_page all_fail_env sample_product.landing_page =
      scrape_failure_default from rfl,
    show search_reviews all_fail_env sample_product.name = neutral_reviews from rfl,
    show check_scam_reports all_fail_env sample_product.name = initial_scam_check from rfl,
    scrape_failure_default]
  simp only [show find_evidence all_fail_env sample_config []
      (sample_product.keywords.getD []) = [] from rfl]
  rw [show (PartialClaims.mk (some []) (some []) (some [])
      (some ["Unable to scrape landing page"])) = scrape_failure_default from rfl,
    score_all_defaults]
  rfl

/-- Helper: the same run against threshold 50 is approved. -/
theorem all_fail_run_low_eq :
    research_product all_fail_env low_threshold_config sample_product =
      Except.ok { all_fail_result with approved := true } := by
  unfold research_product
  simp only [show scrape_landing_page all_fail_env sample_product.landing_page =
      scrape_failure_default from rfl,
    show search_reviews all_fail_env sample_product.name = neutral_reviews from rfl,
    show check_scam_reports all_fail_env sample_product.name = initial_scam_check from rfl,
    scrape_failure_default]
  simp only [show find_evidence all_fail_env low_threshold_config []
      (sample_product.keywords.getD []) = [] from rfl]
  rw [show (PartialClaims.mk (some []) (some []) (some [])
      (some ["Unable to scrape landing page"])) = scrape_failure_default from rfl,
    score_all_defaults]
  rfl

/-- C10: the recommendation text is a function of the trust score alone;
the approved argument is ignored.  In particular the rejected run under
all_fail_env and the threshold-70 configuration carries the Recommended
verdict text in its record and its blacklist entry. -/
theorem recommendation_ignores_approved :
    (∀ (score : Int) (a1 a2 : Bool),
      generate_recommendation score a1 = generate_recommendation score a2) ∧
    (research_product all_fail_env sample_config sample_product).toOption.map
        ResearchResult.approved = some false ∧
    (research_product all_fail_env sample_config sample_product).toOption.map
        ResearchResult.recommendation =
      some "Recommended - Sufficient evidence and generally positive feedback" ∧
    (research_product all_fail_env sample_config sample_product).toOption.map
        (fun r => add_to_blacklist [] sample_product.name r) =
      some [{ product := "TestProduct", trust_score := 60,
              reason := "Recommended - Sufficient evidence and generally positive feedback" }] := by
  refine ⟨fun score a1 a2 => rfl, ?_, ?_, ?_⟩ <;> rw [all_fail_run_eq] <;> rfl

/-- C4: whenever research_product returns a record, the approved flag of
the record equals the comparison of its trust score against the configured
threshold; the comparison is performed by research_product itself, the
scorer takes no threshold. -/
theorem approved_iff_threshold (env : Env) (cfg : Config) (product : Product)
    (r : ResearchResult) (h : research_product env cfg product = .ok r) :
    r.approved = decide (r.trust_score ≥ cfg.trust_score_threshold) := by
  unfold research_product at h
  rcases hc : (scrape_landing_page env product.landing_page).claims with _ | cs
  · simp only [hc] at h
    exact Except.noConfusion h
  · rcases hb : (scrape_landing_page env product.landing_page).benefits with _ | bs
    · simp only [hc, hb] at h
      exact Except.noConfusion h
    · simp only [hc, hb, Except.ok.injEq] at h
      subst h
      rfl

/-- C4 witness: the approval bi-implication at the concrete
all-channels-fail run, sample configuration and sample product. -/
theorem approved_iff_threshold_witness :
    all_fail_result.approved =
      decide (all_fail_result.trust_score ≥ sample_config.trust_score_threshold) :=
  approved_iff_threshold all_fail_env sample_config sample_product
    all_fail_result all_fail_run_eq

/-- C5: concrete run on which research_product raises.  Under llm_down_env
the landing-page fetch succeeds and every OpenAI call raises; _call_openai
swallows the failure and returns an empty JSON object, json.loads parses
it into a dict with no keys, and research_product then raises
KeyError claims at the product_data subscript of line 51 instead of
degrading to the documented default and computing a score. -/
theorem research_raises_on_llm_failure :
    (∀ prompt, llm_down_env.llm prompt = .error ()) ∧
    (∀ url, llm_down_env.fetchLanding url = .ok "Landing page text") ∧
    research_product llm_down_env sample_config sample_product =
      .error (.keyError "claims") :=
  ⟨fun _ => rfl, fun _ => rfl, rfl⟩

/-- C7 counterexample: under llm_down_env the LLM analysis call fails, yet
_scrape_landing_page returns the keyless empty dict, not the documented
failure default with the single red flag. -/
theorem scrape_llm_failure_counterexample :
    (∀ prompt, llm_down_env.llm prompt = .error ()) ∧
    scrape_landing_page llm_down_env "https://example.com/product" =
      { claims := none, benefits := none, ingredients := none, red_flags := none } ∧
    ({ claims := none, benefits := none, ingredients := none, red_flags := none } :
      PartialClaims) ≠ scrape_failure_default :=
  ⟨fun _ => rfl, rfl, by decide⟩

/-- C7 amended: when the page fetch raises, or the fetch and the LLM call
succeed and json.loads fails on the LLM output, _scrape_landing_page
returns exactly the default with the single red flag Unable to scrape
landing page.  When the LLM call itself fails the fallback empty object
parses successfully and the keyless dict is returned instead. -/
theorem scrape_default_on_fetch_or_parse_failure (env : Env) (url : String)
    (h : env.fetchLanding url = .error () ∨
      ∃ text s, env.fetchLanding url = .ok text ∧
        env.llm (scrape_prompt text) = .ok s ∧ env.parseClaims s = none) :
    scrape_landing_page env url = scrape_failure_default := by
  unfold scrape_landing_page call_openai
  rcases h with h | ⟨text, s, hf, hl, hp⟩
  · simp only [h]
  · simp only [hf, hl, hp]

/-- C7 witness: the amended theorem at all_fail_env, where the fetch
raises. -/
theorem scrape_default_witness :
    scrape_landing_page all_fail_env "https://example.com/product" =
      scrape_failure_default :=
  scrape_default_on_fetch_or_parse_failure all_fail_env
    "https://example.com/product" (Or.inl rfl)

/-- Helper: a fold that appends an empty contribution per element leaves
the accumulator unchanged. -/
theorem foldl_append_nil_aux {A B : Type} (f : A → List B) (l : List A)
    (acc : List B) (h : ∀ a ∈ l, f a = []) :
    l.foldl (fun acc a => acc ++ f a) acc = acc := by
  induction l generalizing acc with
  | nil => rfl
  | cons x xs ih =>
    rw [List.foldl_cons, h x (by simp), List.append_nil]
    exact ih acc fun a ha => h a (by simp [ha])

/-- C8: _search_reviews is total in the embedding (it catches every
per-query exception), and whenever no review text is retrievable - every
query returns no results, or every extraction yields empty text, or every
query raises - it returns the neutral default: sentiment 0, no fakes,
empty theme lists. -/
theorem search_reviews_neutral_default (env : Env) (product_name : String)
    (h : (∀ q ∈ review_queries product_name, env.webSearch q 5 = .ok []) ∨
      (∀ u, env.extractReview u = "") ∨
      (∀ q ∈ review_queries product_name, env.webSearch q 5 = .error ())) :
    search_reviews env product_name = neutral_reviews := by
  have hq : ∀ q ∈ review_queries product_name, query_review_texts env q = [] := by
    intro q hqm
    rcases h with h | h | h
    · unfold query_review_texts
      rw [h q hqm]
      rfl
    · unfold query_review_texts
      cases hw : env.webSearch q 5 with
      | error e => rfl
      | ok results =>
        refine List.filterMap_eq_nil_iff.2 fun r hr => ?_
        simp [h r.url]
    · unfold query_review_texts
      rw [h q hqm]
  have hc : collect_review_texts env product_name = [] := by
    unfold collect_review_texts
    exact foldl_append_nil_aux _ _ _ hq
  unfold search_reviews
  rw [hc]
  rfl

/-- C8 witness: the neutral default at all_fail_env, whose every search
returns no results. -/
theorem search_reviews_neutral_witness :
    search_reviews all_fail_env "TestProduct" = neutral_reviews :=
  search_reviews_neutral_default all_fail_env "TestProduct"
    (Or.inl fun q hq => rfl)

/-- C9 counterexample: the run summary violates the claim twice.  Under
llm_down_env the single product raises inside processing and the saved
summary is empty - the product is silently dropped, no errored entry
exists.  Under all_fail_env with threshold 50 in dry-run mode the product
yields an entry whose status is approved, outside the claimed status set. -/
theorem run_summary_dropped_counterexample :
    run_results llm_down_env sample_config false [sample_product] = [] ∧
    process_product all_fail_env low_threshold_config true sample_product =
      .ok approved_entry ∧
    approved_entry.status = "approved" := by
  refine ⟨rfl, ?_, rfl⟩
  unfold process_product
  rw [all_fail_run_low_eq]
  rfl

/-- Helper: every member of the run-results fold is in the accumulator or
is the successful processing result of some product. -/
theorem run_results_mem_aux (env : Env) (cfg : Config) (dry_run : Bool)
    (products : List Product) (acc : List RunEntry) (e : RunEntry)
    (h : e ∈ products.foldl
      (fun results p =>
        match process_product env cfg dry_run p with
        | .ok r => results ++ [r]
        | .error _ => results) acc) :
    e ∈ acc ∨ ∃ p r, process_product env cfg dry_run p = .ok r ∧ e = r := by
  induction products generalizing acc with
  | nil => exact Or.inl h
  | cons p ps ih =>
    rw [List.foldl_cons] at h
    rcases ih _ h with hmem | hex
    · cases hp : process_product env cfg dry_run p with
      | error er =>
        rw [hp] at hmem
        exact Or.inl hmem
      | ok r =>
        rw [hp] at hmem
        rcases List.mem_append.1 hmem with h1 | h2
        · exact Or.inl h1
        · exact Or.inr ⟨p, r, hp, List.mem_singleton.1 h2⟩
    · exact Or.inr hex

/-- Helper: a run entry returned by _process_product carries one of the
three statuses completed, approved or rejected. -/
theorem process_status_aux (env : Env) (cfg : Config) (dry_run : Bool)
    (p : Product) (r : RunEntry)
    (h : process_product env cfg dry_run p = .ok r) :
    r.status = "completed" ∨ r.status = "approved" ∨ r.status = "rejected" := by
  unfold process_product at h
  cases hr : research_product env cfg p with
  | error er =>
    rw [hr] at h
    exact Except.noConfusion h
  | ok research =>
    simp only [hr] at h
    by_cases ha : research.approved = true
    · rw [if_neg (not_not_intro ha)] at h
      by_cases hd : dry_run = true
      · rw [if_pos hd, Except.ok.injEq] at h
        subst h
        exact Or.inr (Or.inl rfl)
      · rw [if_neg hd] at h
        cases hg : env.genContent p research with
        | error er2 =>
          simp only [hg] at h
          exact Except.noConfusion h
        | ok content =>
          simp only [hg, Except.ok.injEq] at h
          subst h
          exact Or.inl rfl
    · rw [if_pos ha, Except.ok.injEq] at h
      subst h
      exact Or.inr (Or.inr rfl)

/-- C9 amended: the saved run summary holds at most one entry per product,
with status drawn from completed, approved (the dry-run research-only
outcome) or rejected; a product whose processing raises is written to the
error log only and contributes no summary entry, and no errored status
exists. -/
theorem run_summary_statuses (env : Env) (cfg : Config) (dry_run : Bool)
    (products : List Product) (e : RunEntry)
    (h : e ∈ run_results env cfg dry_run products) :
    e.status = "completed" ∨ e.status = "approved" ∨ e.status = "rejected" := by
  unfold run_results at h
  rcases run_results_mem_aux env cfg dry_run products [] e h with hmem | ⟨p, r, hp, he⟩
  · exact absurd hmem (List.not_mem_nil e)
  · subst he
    exact process_status_aux env cfg dry_run p e hp

/-- C9 amended witness: the rejected entry of the concrete
all-channels-fail run is in the summary and carries a legal status. -/
theorem run_summary_statuses_witness :
    rejected_entry.status = "completed" ∨ rejected_entry.status = "approved" ∨
      rejected_entry.status = "rejected" :=
  run_summary_statuses all_fail_env sample_config false [sample_product]
    rejected_entry
    (by
      have hp : process_product all_fail_env sample_config false sample_product =
          .ok rejected_entry := by
        unfold process_product
        rw [all_fail_run_eq]
        rfl
      unfold run_results
      rw [List.foldl_cons, hp]
      simp)

end BlogGuru
